import Mathlib

/-!
Verification of the portfolio backend server (src/server.js): the template
renderer, the contact-form endpoint pipeline (validation, transporter
creation, SMTP verification, template loading, two sequential mail sends,
error mapping) and the fixed-window rate limiter configuration.

The handler is embedded as a pure function over an abstract environment
recording the outcome of each external effect (password configuration,
transporter verification, template store reads, the two sendMail calls),
returning the trace of attempted effects together with the HTTP response.
-/

/-- The backquote character, named to keep it out of literals. -/
def backquoteChar : Char := Char.ofNat 96

/-- The straight quote character, named to keep it out of literals. -/
def quoteChar : Char := Char.ofNat 39

/-- GetSubstitution of the ECMAScript String.replace for a string
replacement and a regex without capture groups: a doubled dollar sign
yields one dollar sign, dollar-ampersand inserts the matched text,
dollar-backquote the part of the subject before the match, dollar-quote
the part after it; any other dollar sequence is literal, since the token
regex of renderTemplate has no capture groups. The parameter m is the
matched text, b the subject before the match, a the subject after it. -/
def expandDollar (m b a : List Char) : List Char → List Char
  | [] => []
  | [c] => [c]
  | c :: d :: rest =>
    if c = '$' then
      if d = '$' then '$' :: expandDollar m b a rest
      else if d = '&' then m ++ expandDollar m b a rest
      else if d = backquoteChar then b ++ expandDollar m b a rest
      else if d = quoteChar then a ++ expandDollar m b a rest
      else '$' :: d :: expandDollar m b a rest
    else c :: expandDollar m b a (d :: rest)

/-- One global left-to-right single-pass replacement of a literal pattern,
fuel-indexed to keep the definition structural and kernel-reducible.
Mirrors the JS String.replace with a global regex on a literal token: a
match consumes the pattern, emits the replacement with its dollar
patterns expanded against the original subject, and continues after the
match without rescanning the emitted text. The parameter pre is the part
of the original subject already consumed, used by dollar-backquote. -/
def replaceAllF : Nat → List Char → List Char → List Char → List Char → List Char
  | 0, _, _, _, s => s
  | _ + 1, _, _, _, [] => []
  | fuel + 1, p, r, pre, c :: s =>
    if p.isPrefixOf (c :: s) then
      expandDollar p pre (s.drop (p.length - 1)) r
        ++ replaceAllF fuel p r (pre ++ p) (s.drop (p.length - 1))
    else c :: replaceAllF fuel p r (pre ++ [c]) s

/-- The replacement run from a given consumed prefix of the subject. -/
def replaceAllA (p r pre s : List Char) : List Char := replaceAllF s.length p r pre s

def replaceAll (p r s : List Char) : List Char := replaceAllF s.length p r [] s

/-- Whether the pattern occurs as a contiguous run inside the list. -/
def occurs (p : List Char) : List Char → Bool
  | [] => p.isPrefixOf []
  | c :: s => p.isPrefixOf (c :: s) || occurs p s

/-- JS String.prototype.includes on a literal needle. -/
def strContains (s pat : String) : Bool := occurs pat.data s.data

/-- The literal placeholder token of a key: two opening braces, the key,
two closing braces, exactly the literal text matched by the JS regex
built in renderTemplate for an alphanumeric key. -/
def token (k : List Char) : List Char := '{' :: '{' :: (k ++ ['}', '}'])

def notSpecified : List Char := "Not specified".data

/-- JS value or default: a falsy (empty) value falls back to the literal
Not specified, as in the expression value with the or-default in line 32. -/
def valOf (v : List Char) : List Char := if v = [] then notSpecified else v

/-- renderTemplate from src/server.js lines 28-35: fold over the entries of
the variables object in insertion order, each step replacing every
occurrence of the token of that key in the working string. -/
def renderTemplate (t : List Char) (vars : List (List Char × List Char)) : List Char :=
  vars.foldl (fun s kv => replaceAll (token kv.1) (valOf kv.2) s) t

def renderTemplateS (t : String) (vars : List (String × String)) : String :=
  String.mk (renderTemplate t.data (vars.map fun kv => (kv.1.data, kv.2.data)))

/-- The ECMAScript whitespace class written backslash-s: WhiteSpace and
LineTerminator code points (tab, line feed, vertical tab, form feed,
carriage return, space, no-break space, ogham space mark, the en-quad
through hair-space range, line and paragraph separators, narrow no-break
space, medium mathematical space, ideographic space, byte order mark). -/
def jsWhitespace (c : Char) : Bool :=
  decide (c.toNat = 0x9 ∨ c.toNat = 0xA ∨ c.toNat = 0xB ∨ c.toNat = 0xC ∨ c.toNat = 0xD
    ∨ c.toNat = 0x20 ∨ c.toNat = 0xA0 ∨ c.toNat = 0x1680
    ∨ (0x2000 ≤ c.toNat ∧ c.toNat ≤ 0x200A)
    ∨ c.toNat = 0x2028 ∨ c.toNat = 0x2029 ∨ c.toNat = 0x202F ∨ c.toNat = 0x205F
    ∨ c.toNat = 0x3000 ∨ c.toNat = 0xFEFF)

/-- A character admitted by the character class of the email regex:
not ECMAScript whitespace and not an at sign. -/
def validEmailChar (c : Char) : Bool := !jsWhitespace c && c != '@'

/-- Whether the list has a dot at a position that is not its last position. -/
def hasDotNotLast : List Char → Bool
  | [] => false
  | [_] => false
  | c :: d :: rest => (c == '.') || hasDotNotLast (d :: rest)

/-- Whether the list has a dot at a position that is neither first nor last. -/
def hasInnerDot : List Char → Bool
  | [] => false
  | _ :: rest => hasDotNotLast rest

/-- The email validation regex of src/server.js line 133: one or more
non-whitespace non-at characters, an at sign, then a domain of the same
character class that decomposes around a literal dot with nonempty sides. -/
def emailRegexMatch (s : List Char) : Bool :=
  match s.dropWhile (fun c => c != '@') with
  | [] => false
  | _ :: domain =>
    let localPart := s.takeWhile (fun c => c != '@')
    !localPart.isEmpty && localPart.all validEmailChar
      && domain.all validEmailChar && hasInnerDot domain

/-- The shape accepted by the regex, written out as the spec describes a
two-part address: a nonempty local part, an at sign, and a domain that
splits as x dot y with both sides nonempty, all characters free of
whitespace and of further at signs. -/
def EmailShapeSpec (s : List Char) : Prop :=
  ∃ L x y, s = L ++ '@' :: (x ++ '.' :: y) ∧ L ≠ [] ∧ x ≠ [] ∧ y ≠ []
    ∧ L.all validEmailChar = true ∧ x.all validEmailChar = true ∧ y.all validEmailChar = true

/-- The shape exactly as the claim words it: nonempty local part without
whitespace or at signs, an at sign, then a domain containing at least one
dot, with no whitespace and no extra at sign. -/
def EmailClaimShape (s : List Char) : Prop :=
  ∃ L D, s = L ++ '@' :: D ∧ L ≠ [] ∧ D ≠ []
    ∧ L.all validEmailChar = true ∧ D.all validEmailChar = true ∧ '.' ∈ D

/-- A JS error value as the catch block of the handler inspects it:
an optional code property and a message string. -/
structure JsError where
  code : Option String
  msg : String
deriving DecidableEq

structure Response where
  status : Nat
  success : Bool
  message : String
deriving DecidableEq

/-- The argument object of a nodemailer sendMail call. -/
structure MailOptions where
  fromAddr : String
  toAddr : String
  replyTo : Option String
  subject : String
  html : String
  text : String
deriving DecidableEq

/-- Externally visible effects attempted by one request, in order. -/
inductive Event where
  | createTransporter : Event
  | verify : Event
  | loadTpl : String → String → Event
  | send : MailOptions → Event
deriving DecidableEq

/-- The request body fields destructured by the handler; absent fields are
none, matching undefined in JS. -/
structure Request where
  name : Option String
  email : Option String
  budget : Option String
  message : Option String

/-- Abstract environment fixing the outcome of every external effect:
the environment variables read by the handler, the result of
transporter.verify, the template store, the outcomes of the first and
second sendMail call, and the formatted submission time. -/
structure Env where
  emailUser : Option String
  emailPassword : Option String
  verifyResult : Option JsError
  tpl : String → String → Option String
  send1 : Option JsError
  send2 : Option JsError
  nowFormatted : String

def ownerEmail : String := "abhishek.dev694@gmail.com"

/-- JS falsy-or-default on an optional string: undefined or empty gives
the default. -/
def orDefault (o : Option String) (d : String) : String :=
  match o with
  | none => d
  | some s => if s = "" then d else s

/-- JS falsy test on a destructured body field: undefined or empty. -/
def isBlank : Option String → Bool
  | none => true
  | some s => decide (s = "")

def genericErrMsg : String :=
  "Sorry, there was an error sending your message. Please try again or email me directly at abhishek.dev694@gmail.com"

/-- The error-kind-specific user-facing message of the catch block,
lines 229-237 of src/server.js. -/
def errorMessage (e : JsError) : String :=
  if e.code = some "ETIMEDOUT" then
    "Connection timeout occurred. Please try again in a moment or email me directly at abhishek.dev694@gmail.com"
  else if e.code = some "EAUTH" then
    "Email authentication failed. Please email me directly at abhishek.dev694@gmail.com"
  else if strContains e.msg "Email configuration incomplete" then
    "Email system is currently being configured. Please email me directly at abhishek.dev694@gmail.com"
  else genericErrMsg

/-- templateVariables of src/server.js lines 169-176, in insertion order. -/
def templateVars (name email : String) (budget : Option String)
    (message effUser subTime : String) : List (String × String) :=
  [("CLIENT_NAME", name), ("CLIENT_EMAIL", email),
   ("CLIENT_BUDGET", orDefault budget "Not specified"), ("CLIENT_MESSAGE", message),
   ("DEVELOPER_EMAIL", effUser), ("SUBMISSION_TIME", subTime)]

/-- clientMailOptions of lines 191-198: the notification to the owner. -/
def mkNotificationMail (name email : String) (budget : Option String)
    (effUser html text : String) : MailOptions :=
  { fromAddr := "\"" ++ name ++ " via Portfolio\" <" ++ effUser ++ ">"
    toAddr := ownerEmail
    replyTo := some email
    subject := "🚀 New Project Inquiry from " ++ name ++ " - " ++ orDefault budget "Budget TBD"
    html := html
    text := text }

/-- autoReplyOptions of lines 201-207: the auto-reply to the submitter. -/
def mkAutoReplyMail (name email effUser html text : String) : MailOptions :=
  { fromAddr := "\"Abhishek Goel - Web Developer\" <" ++ effUser ++ ">"
    toAddr := email
    replyTo := none
    subject := "Thanks for your inquiry, " ++ name ++ "! I\x27ll be in touch soon 🚀"
    html := html
    text := text }

def successMsg : String := "Thank you for your message! I\x27ll get back to you within 24 hours."

/-- The six effects preceding any send on the success path. -/
def evs6 : List Event :=
  [Event.createTransporter, Event.verify,
   Event.loadTpl "notification" "html", Event.loadTpl "notification" "txt",
   Event.loadTpl "auto-reply" "html", Event.loadTpl "auto-reply" "txt"]

/-- The two sequential sendMail calls of lines 210-211, each failure caught
by the catch block. -/
def sendPhase (env : Env) (m1 m2 : MailOptions) : List Event × Response :=
  match env.send1 with
  | some e => (evs6 ++ [Event.send m1], ⟨500, false, errorMessage e⟩)
  | none =>
    match env.send2 with
    | some e => (evs6 ++ [Event.send m1, Event.send m2], ⟨500, false, errorMessage e⟩)
    | none => (evs6 ++ [Event.send m1, Event.send m2], ⟨200, true, successMsg⟩)

/-- Template loading and rendering, lines 178-188: the four loads run in
order, a failing load throws and is answered by the catch block with the
generic message since a template error carries no code. -/
def tplPhase (env : Env) (name email message : String) (budget : Option String) :
    List Event × Response :=
  match env.tpl "notification" "html" with
  | none => ([Event.createTransporter, Event.verify, Event.loadTpl "notification" "html"],
      ⟨500, false, errorMessage ⟨none, "Template notification.html not found"⟩⟩)
  | some nh =>
    match env.tpl "notification" "txt" with
    | none => ([Event.createTransporter, Event.verify, Event.loadTpl "notification" "html",
        Event.loadTpl "notification" "txt"],
        ⟨500, false, errorMessage ⟨none, "Template notification.txt not found"⟩⟩)
    | some nt =>
      match env.tpl "auto-reply" "html" with
      | none => ([Event.createTransporter, Event.verify, Event.loadTpl "notification" "html",
          Event.loadTpl "notification" "txt", Event.loadTpl "auto-reply" "html"],
          ⟨500, false, errorMessage ⟨none, "Template auto-reply.html not found"⟩⟩)
      | some ah =>
        match env.tpl "auto-reply" "txt" with
        | none => ([Event.createTransporter, Event.verify, Event.loadTpl "notification" "html",
            Event.loadTpl "notification" "txt", Event.loadTpl "auto-reply" "html",
            Event.loadTpl "auto-reply" "txt"],
            ⟨500, false, errorMessage ⟨none, "Template auto-reply.txt not found"⟩⟩)
        | some atx =>
          let effUser := orDefault env.emailUser ownerEmail
          let tv := templateVars name email budget message effUser (env.nowFormatted ++ " EST")
          sendPhase env
            (mkNotificationMail name email budget effUser
              (renderTemplateS nh tv) (renderTemplateS nt tv))
            (mkAutoReplyMail name email effUser
              (renderTemplateS ah tv) (renderTemplateS atx tv))

/-- The pipeline after validation: transporter creation (throwing when the
password is missing or empty, line 70), verification (lines 147-157), then
templates and sends. -/
def contactCore (env : Env) (name email message : String) (budget : Option String) :
    List Event × Response :=
  if isBlank env.emailPassword then
    ([], ⟨500, false, errorMessage ⟨none, "Email configuration incomplete"⟩⟩)
  else
    match env.verifyResult with
    | some e => ([Event.createTransporter, Event.verify], ⟨500, false, errorMessage e⟩)
    | none => tplPhase env name email message budget

/-- The POST contact handler of src/server.js lines 120-244: required-field
validation, email regex validation, then the effectful pipeline. -/
def contactHandler (env : Env) (req : Request) : List Event × Response :=
  if isBlank req.name || isBlank req.email || isBlank req.message then
    ([], ⟨400, false, "Please fill in all required fields (name, email, message)."⟩)
  else if !emailRegexMatch (req.email.getD "").data then
    ([], ⟨400, false, "Please enter a valid email address."⟩)
  else
    contactCore env (req.name.getD "") (req.email.getD "") (req.message.getD "") req.budget

/-- The sendMail attempts recorded in a trace, in order. -/
def sends (evs : List Event) : List MailOptions :=
  evs.filterMap fun e =>
    match e with
    | Event.send m => some m
    | _ => none

/-- The rate limiter configuration of src/server.js lines 41-50. -/
def emailLimiterWindowMs : Nat := 60 * 60 * 1000

def emailLimiterMax : Nat := 5

def emailLimiterMessage : String := "Too many emails sent from this IP. Please try again later."

/-- Modelled from the spec: the fixed-window store of the express-rate-limit
dependency is not part of this repository, so the per-client-address counter
is modelled from the spec, section 4.5 and section 3: a counter created on
the first request from an address, counting accepted requests up to the
quota inside a window of fixed length starting at that first request, and
expiring when the window elapses. The state is none before the first
request, otherwise the window start and the count. -/
def rlStep (st : Option (Nat × Nat)) (t : Nat) : Option (Nat × Nat) × Bool :=
  match st with
  | none => (some (t, 1), true)
  | some (s, c) =>
    if s + emailLimiterWindowMs ≤ t then (some (t, 1), true)
    else if c < emailLimiterMax then (some (s, c + 1), true)
    else (some (s, c), false)

/-- The acceptance decisions of a sequence of requests from one address. -/
def runRL (st : Option (Nat × Nat)) : List Nat → List Bool
  | [] => []
  | t :: ts => (rlStep st t).2 :: runRL (rlStep st t).1 ts

/-- The limiter state after a sequence of requests from one address. -/
def runState (st : Option (Nat × Nat)) : List Nat → Option (Nat × Nat)
  | [] => st
  | t :: ts => runState (rlStep st t).1 ts

/-- The rate-limited route: the middleware either passes the request to the
handler or answers with the fixed rejection body and a 429 status. -/
def contactRoute (env : Env) (req : Request) (accepted : Bool) : List Event × Response :=
  if accepted then contactHandler env req
  else ([], ⟨429, false, emailLimiterMessage⟩)

/-- A list is brace-free when it holds neither an opening nor a closing
brace. -/
def braceFree (l : List Char) : Bool := l.all fun c => c != '{' && c != '}'

/-- A valid request body used to exercise the pipeline. -/
def reqOk : Request := ⟨some "Jane", some "jane@x.com", none, some "Hi"⟩

/-- A request body with the message field absent. -/
def reqNoMsg : Request := ⟨some "Jane", some "jane@x.com", none, none⟩

/-- An environment in which every external effect succeeds. -/
def envOk : Env :=
  ⟨none, some "secret", none, fun _ _ => some "T", none, none, "January 1, 2026 at 10:00 AM"⟩

/-- An environment whose transporter verification fails with a timeout. -/
def envVerifyFail : Env := { envOk with verifyResult := some ⟨some "ETIMEDOUT", "timed out"⟩ }

/-- An environment with the mail password unset. -/
def envNoPw : Env := { envOk with emailPassword := none }

/-- An environment whose template store holds no files. -/
def envTplFail : Env := { envOk with tpl := fun _ _ => none }

/-- An environment in which the second send fails with an auth error. -/
def envSend2Fail : Env := { envOk with send2 := some ⟨some "EAUTH", "auth rejected"⟩ }

theorem replaceAllA_nil (p r pre : List Char) : replaceAllA p r pre [] = [] := rfl

theorem braceFree_cons (c : Char) (l : List Char) :
    braceFree (c :: l) = true ↔ (c ≠ '{' ∧ c ≠ '}' ∧ braceFree l = true) := by
  simp [braceFree, and_assoc]

theorem occurs_cons (p : List Char) (c : Char) (s : List Char) :
    occurs p (c :: s) = (p.isPrefixOf (c :: s) || occurs p s) := rfl

/-- The dollar-ampersand replacement pattern reinserts the matched text,
as the JS String.replace does: replacing the token of A by the dollar
ampersand sequence leaves the token in place. -/
theorem replaceAll_dollar_amp :
    replaceAll (token ['A']) ['$', '&'] (token ['A']) = token ['A'] := by decide

/-- C9: substitution is sequential in map-entry order and substituted values
join the working string, so a value containing the token of a later key is
itself expanded; with the reversed entry order the token survives instead. -/
theorem renderTemplate_sequential_expansion :
    renderTemplate ("From: ".data ++ token "CLIENT_NAME".data)
        [("CLIENT_NAME".data, token "CLIENT_EMAIL".data), ("CLIENT_EMAIL".data, "a@b.c".data)]
      = "From: a@b.c".data
    ∧ renderTemplate ("From: ".data ++ token "CLIENT_NAME".data)
        [("CLIENT_EMAIL".data, "a@b.c".data), ("CLIENT_NAME".data, token "CLIENT_EMAIL".data)]
      = "From: ".data ++ token "CLIENT_EMAIL".data := by
  constructor
  · decide
  · decide

theorem hasDotNotLast_iff :
    ∀ l : List Char, hasDotNotLast l = true ↔ ∃ a b, l = a ++ '.' :: b ∧ b ≠ [] := by
  intro l
  match l with
  | [] =>
    refine iff_of_false (by simp [hasDotNotLast]) ?_
    rintro ⟨a, b, h, hb⟩
    simp at h
  | [c] =>
    refine iff_of_false (by simp [hasDotNotLast]) ?_
    rintro ⟨a, b, h, hb⟩
    match a with
    | [] =>
      rw [List.nil_append, List.cons.injEq] at h
      exact hb h.2.symm
    | a0 :: a2 =>
      rw [List.cons_append, List.cons.injEq] at h
      have := congrArg List.length h.2
      simp at this
      omega
  | c :: d :: rest =>
    rw [show hasDotNotLast (c :: d :: rest) = ((c == '.') || hasDotNotLast (d :: rest))
      from rfl, Bool.or_eq_true, hasDotNotLast_iff (d :: rest)]
    constructor
    · rintro (hc | ⟨a, b, h, hb⟩)
      · exact ⟨[], d :: rest, by simp [beq_iff_eq.mp hc], by simp⟩
      · exact ⟨c :: a, b, by simp [h], hb⟩
    · rintro ⟨a, b, h, hb⟩
      match a with
      | [] =>
        left
        rw [List.nil_append, List.cons.injEq] at h
        simp [h.1]
      | a0 :: a2 =>
        right
        rw [List.cons_append, List.cons.injEq] at h
        exact ⟨a2, b, h.2, hb⟩

theorem hasInnerDot_iff (d : List Char) :
    hasInnerDot d = true ↔ ∃ x y, d = x ++ '.' :: y ∧ x ≠ [] ∧ y ≠ [] := by
  match d with
  | [] =>
    refine iff_of_false (by simp [hasInnerDot]) ?_
    rintro ⟨x, y, h, hx, hy⟩
    rcases x with _ | ⟨x0, x2⟩
    · exact hx rfl
    · simp at h
  | c :: rest =>
    rw [show hasInnerDot (c :: rest) = hasDotNotLast rest from rfl, hasDotNotLast_iff]
    constructor
    · rintro ⟨a, b, h, hb⟩
      exact ⟨c :: a, b, by simp [h], by simp, hb⟩
    · rintro ⟨x, y, h, hx, hy⟩
      match x with
      | [] => exact absurd rfl hx
      | x0 :: x2 =>
        rw [List.cons_append, List.cons.injEq] at h
        exact ⟨x2, y, h.2, hy⟩
theorem takeWhile_middle (p : Char → Bool) :
    ∀ (l : List Char) (c : Char) (t : List Char), (∀ a ∈ l, p a = true) → p c = false →
      (l ++ c :: t).takeWhile p = l ∧ (l ++ c :: t).dropWhile p = c :: t := by
  intro l
  induction l with
  | nil =>
    intro c t _ hc
    simp [List.takeWhile, List.dropWhile, hc]
  | cons a l ih =>
    intro c t hl hc
    have ha : p a = true := hl a (by simp)
    have := ih c t (fun b hb => hl b (by simp [hb])) hc
    simp [List.takeWhile, List.dropWhile, ha, this.1, this.2]

theorem dropWhile_head_false (p : Char → Bool) :
    ∀ (l : List Char) (c : Char) (t : List Char), l.dropWhile p = c :: t → p c = false := by
  intro l
  induction l with
  | nil => intro c t h; simp [List.dropWhile] at h
  | cons a l ih =>
    intro c t h
    rw [List.dropWhile] at h
    split at h
    · exact ih c t h
    · rename_i ha
      rw [List.cons.injEq] at h
      rw [← h.1]
      simpa using ha

theorem mem_takeWhile_pred (p : Char → Bool) :
    ∀ (l : List Char) (a : Char), a ∈ l.takeWhile p → p a = true := by
  intro l
  induction l with
  | nil => intro a h; simp [List.takeWhile] at h
  | cons b l ih =>
    intro a h
    rw [List.takeWhile] at h
    split at h
    · rename_i hb
      rcases List.mem_cons.mp h with h1 | h1
      · rw [h1]; exact hb
      · exact ih a h1
    · simp at h

/-- The regex acceptance coincides with the corrected two-part shape. -/
theorem emailRegexMatch_iff_spec (s : List Char) :
    emailRegexMatch s = true ↔ EmailShapeSpec s := by
  constructor
  · intro h
    rw [emailRegexMatch] at h
    split at h
    · exact absurd h (by simp)
    · rename_i c domain hdrop
      simp only [Bool.and_eq_true, Bool.not_eq_true'] at h
      obtain ⟨⟨⟨hne, hlocal⟩, hdom⟩, hdot⟩ := h
      have hc : c = '@' := by
        have := dropWhile_head_false _ s c domain hdrop
        simpa using this
      have hsplit : s.takeWhile (fun c => c != '@') ++ c :: domain = s := by
        rw [← hdrop]
        exact List.takeWhile_append_dropWhile _ _
      obtain ⟨x, y, hxy, hx, hy⟩ := (hasInnerDot_iff domain).mp hdot
      rw [hc, hxy] at hsplit
      refine ⟨s.takeWhile (fun c => c != '@'), x, y, hsplit.symm, ?_, hx, hy, hlocal, ?_, ?_⟩
      · intro he
        rw [he] at hne
        simp [List.isEmpty] at hne
      · rw [hxy] at hdom
        simp only [List.all_append, List.all_cons, Bool.and_eq_true] at hdom
        exact hdom.1
      · rw [hxy] at hdom
        simp only [List.all_append, List.all_cons, Bool.and_eq_true] at hdom
        exact hdom.2.2
  · rintro ⟨L, x, y, hs, hL, hx, hy, hLall, hxall, hyall⟩
    have hLp : ∀ a ∈ L, (a != '@') = true := by
      intro a ha
      have := (List.all_eq_true.mp hLall) a ha
      simp only [validEmailChar, Bool.and_eq_true] at this
      exact this.2
    have htw := takeWhile_middle (fun c => c != '@') L '@' (x ++ '.' :: y) hLp (by simp)
    rw [emailRegexMatch, hs, htw.2]
    simp only [htw.1]
    have hxv : ∀ a ∈ x, validEmailChar a = true := List.all_eq_true.mp hxall
    have hyv : ∀ a ∈ y, validEmailChar a = true := List.all_eq_true.mp hyall
    simp only [Bool.and_eq_true]
    refine ⟨⟨⟨?_, hLall⟩, ?_⟩, ?_⟩
    · simpa [List.isEmpty_iff] using hL
    · rw [List.all_eq_true]
      intro a ha
      rcases List.mem_append.mp ha with h1 | h1
      · exact hxv a h1
      · rcases List.mem_cons.mp h1 with h2 | h2
        · rw [h2]; decide
        · exact hyv a h2
    · rw [hasInnerDot_iff]
      exact ⟨x, y, rfl, hx, hy⟩

/-- C7 counterexample: the address x at dot y has the claim-stated shape
(nonempty local part, at sign, domain containing a dot, no whitespace and
no extra at sign) yet the regex rejects it, because the dot may not be the
first character of the domain. -/
theorem emailRegex_rejects_dot_first_domain :
    EmailClaimShape "x@.y".data ∧ emailRegexMatch "x@.y".data = false :=
  ⟨⟨"x".data, ".y".data, by decide, by decide, by decide, by decide, by decide, by decide⟩,
   by decide⟩

/-- C7 (amended): the regex accepts exactly the two-part addresses whose
domain splits around a dot that is neither its first nor its last
character; any request whose email fails the regex is answered with a 400
failure response and an empty effect trace, so no mail is attempted. -/
theorem emailRegex_shape_400 :
    (∀ s : List Char, emailRegexMatch s = true ↔ EmailShapeSpec s)
    ∧ (∀ (env : Env) (req : Request) (e : String), req.email = some e →
        emailRegexMatch e.data = false →
        (contactHandler env req).1 = [] ∧ (contactHandler env req).2.status = 400
          ∧ (contactHandler env req).2.success = false) := by
  refine ⟨emailRegexMatch_iff_spec, ?_⟩
  intro env req e he hreg
  rw [contactHandler]
  by_cases hb : (isBlank req.name || isBlank req.email || isBlank req.message) = true
  · rw [if_pos hb]
    exact ⟨rfl, rfl, rfl⟩
  · rw [if_neg hb]
    have hge : req.email.getD "" = e := by rw [he]; rfl
    rw [hge, hreg]
    simp

/-- C7 amended witness: a shaped address accepted through the
characterization, and a concrete rejected request. -/
theorem emailRegex_shape_400_witness :
    emailRegexMatch "a@b.c".data = true
    ∧ ((contactHandler envOk ⟨some "Jane", some "x@y", none, some "Hi"⟩).1 = []
        ∧ (contactHandler envOk ⟨some "Jane", some "x@y", none, some "Hi"⟩).2.status = 400
        ∧ (contactHandler envOk ⟨some "Jane", some "x@y", none, some "Hi"⟩).2.success = false) :=
  ⟨(emailRegex_shape_400.1 "a@b.c".data).mpr
      ⟨"a".data, "b".data, "c".data, by decide, by decide, by decide, by decide, by decide,
        by decide, by decide⟩,
   emailRegex_shape_400.2 envOk ⟨some "Jane", some "x@y", none, some "Hi"⟩ "x@y" rfl (by decide)⟩

/-- C2: a request missing or blank in name, email or message is answered
with the 400 validation response, a success flag of false, and an empty
effect trace: no transporter is created, nothing is verified, and no mail
send is attempted. -/
theorem contact_missing_fields_400 (env : Env) (req : Request)
    (h : isBlank req.name = true ∨ isBlank req.email = true ∨ isBlank req.message = true) :
    contactHandler env req
      = ([], ⟨400, false, "Please fill in all required fields (name, email, message)."⟩) := by
  rw [contactHandler, if_pos]
  rcases h with h | h | h
  all_goals simp [h]

/-- C2 witness: a request with the message field absent. -/
theorem contact_missing_fields_400_witness :
    isBlank reqNoMsg.message = true
    ∧ contactHandler envOk reqNoMsg
      = ([], ⟨400, false, "Please fill in all required fields (name, email, message)."⟩) :=
  ⟨by decide, contact_missing_fields_400 envOk reqNoMsg (Or.inr (Or.inr (by decide)))⟩

theorem contactHandler_core (env : Env) (req : Request)
    (h1 : isBlank req.name = false) (h2 : isBlank req.email = false)
    (h3 : isBlank req.message = false)
    (h4 : emailRegexMatch (req.email.getD "").data = true) :
    contactHandler env req
      = contactCore env (req.name.getD "") (req.email.getD "") (req.message.getD "") req.budget := by
  rw [contactHandler, if_neg, if_neg]
  · simp [h4]
  · simp [h1, h2, h3]

theorem contactCore_tpl (env : Env) (n e m : String) (b : Option String)
    (h5 : isBlank env.emailPassword = false) (hv : env.verifyResult = none) :
    contactCore env n e m b = tplPhase env n e m b := by
  rw [contactCore, if_neg, hv]
  simp [h5]

theorem tplPhase_success (env : Env) (n e m : String) (b : Option String)
    (nh nt ah atx : String)
    (t1 : env.tpl "notification" "html" = some nh) (t2 : env.tpl "notification" "txt" = some nt)
    (t3 : env.tpl "auto-reply" "html" = some ah) (t4 : env.tpl "auto-reply" "txt" = some atx) :
    tplPhase env n e m b = sendPhase env
      (mkNotificationMail n e b (orDefault env.emailUser ownerEmail)
        (renderTemplateS nh (templateVars n e b m (orDefault env.emailUser ownerEmail)
          (env.nowFormatted ++ " EST")))
        (renderTemplateS nt (templateVars n e b m (orDefault env.emailUser ownerEmail)
          (env.nowFormatted ++ " EST"))))
      (mkAutoReplyMail n e (orDefault env.emailUser ownerEmail)
        (renderTemplateS ah (templateVars n e b m (orDefault env.emailUser ownerEmail)
          (env.nowFormatted ++ " EST")))
        (renderTemplateS atx (templateVars n e b m (orDefault env.emailUser ownerEmail)
          (env.nowFormatted ++ " EST")))) := by
  rw [tplPhase, t1, t2, t3, t4]

theorem sends_evs6_append (l : List Event) : sends (evs6 ++ l) = sends l := by
  simp [sends, evs6]

theorem sends_two (m1 m2 : MailOptions) :
    sends [Event.send m1, Event.send m2] = [m1, m2] := rfl

/-- C1: with nonblank fields, a regex-valid email, a configured password,
successful verification, loadable templates and two successful sends, the
handler performs exactly two sends, the first to the fixed owner address
with replyTo the submitter, the second to the submitter, and answers 200
with the success flag and the confirmation message. -/
theorem contact_valid_two_sends (env : Env) (req : Request)
    (h1 : isBlank req.name = false) (h2 : isBlank req.email = false)
    (h3 : isBlank req.message = false)
    (h4 : emailRegexMatch (req.email.getD "").data = true)
    (h5 : isBlank env.emailPassword = false) (hv : env.verifyResult = none)
    (t1 : (env.tpl "notification" "html").isSome = true)
    (t2 : (env.tpl "notification" "txt").isSome = true)
    (t3 : (env.tpl "auto-reply" "html").isSome = true)
    (t4 : (env.tpl "auto-reply" "txt").isSome = true)
    (hs1 : env.send1 = none) (hs2 : env.send2 = none) :
    ∃ m1 m2, sends (contactHandler env req).1 = [m1, m2]
      ∧ m1.toAddr = ownerEmail ∧ m1.replyTo = some (req.email.getD "")
      ∧ m2.toAddr = req.email.getD ""
      ∧ (contactHandler env req).2 = ⟨200, true, successMsg⟩ := by
  obtain ⟨nh, e1⟩ := Option.isSome_iff_exists.mp t1
  obtain ⟨nt, e2⟩ := Option.isSome_iff_exists.mp t2
  obtain ⟨ah, e3⟩ := Option.isSome_iff_exists.mp t3
  obtain ⟨atx, e4⟩ := Option.isSome_iff_exists.mp t4
  rw [contactHandler_core env req h1 h2 h3 h4, contactCore_tpl env _ _ _ _ h5 hv,
    tplPhase_success env _ _ _ _ nh nt ah atx e1 e2 e3 e4, sendPhase, hs1, hs2]
  exact ⟨_, _, by rw [sends_evs6_append, sends_two], rfl, rfl, rfl, rfl⟩

/-- C1 witness: the concrete all-success environment and valid request. -/
theorem contact_valid_two_sends_witness :
    envOk.send1 = none
    ∧ ∃ m1 m2, sends (contactHandler envOk reqOk).1 = [m1, m2]
        ∧ m1.toAddr = ownerEmail ∧ m1.replyTo = some (reqOk.email.getD "")
        ∧ m2.toAddr = reqOk.email.getD ""
        ∧ (contactHandler envOk reqOk).2 = ⟨200, true, successMsg⟩ :=
  ⟨rfl, contact_valid_two_sends envOk reqOk (by decide) (by decide) (by decide) (by decide)
    (by decide) rfl (by decide) (by decide) (by decide) (by decide) rfl rfl⟩

theorem contactHandler_sends_cases (env : Env) (req : Request) :
    sends (contactHandler env req).1 = []
    ∨ (∃ m1 e, sends (contactHandler env req).1 = [m1] ∧ env.send1 = some e
        ∧ m1.toAddr = ownerEmail ∧ (contactHandler env req).1.take 6 = evs6
        ∧ (contactHandler env req).2 = ⟨500, false, errorMessage e⟩)
    ∨ (∃ m1 m2, sends (contactHandler env req).1 = [m1, m2] ∧ env.send1 = none
        ∧ m1.toAddr = ownerEmail ∧ m1.replyTo = some (req.email.getD "")
        ∧ m2.toAddr = req.email.getD ""
        ∧ (contactHandler env req).1 = evs6 ++ [Event.send m1, Event.send m2]
        ∧ (contactHandler env req).1.take 6 = evs6
        ∧ (∀ e, env.send2 = some e → (contactHandler env req).2 = ⟨500, false, errorMessage e⟩)
        ∧ (env.send2 = none → (contactHandler env req).2 = ⟨200, true, successMsg⟩)) := by
  rw [contactHandler]
  split
  · left; rfl
  · split
    · left; rfl
    · rw [contactCore]
      split
      · left; rfl
      · split
        · left; rfl
        · rw [tplPhase]
          split
          · left; rfl
          · split
            · left; rfl
            · split
              · left; rfl
              · split
                · left; rfl
                · rw [sendPhase]
                  split
                  · rename_i e s1
                    right; left
                    exact ⟨_, e, by rw [sends_evs6_append]; rfl, s1, rfl, rfl, rfl⟩
                  · rename_i s1
                    split
                    · rename_i e s2
                      right; right
                      refine ⟨_, _, by rw [sends_evs6_append]; rfl, s1, rfl, rfl, rfl, rfl, rfl,
                        ?_, ?_⟩
                      · intro e2 he2
                        rw [s2, Option.some.injEq] at he2
                        rw [he2]
                      · intro h
                        simp [s2] at h
                    · rename_i s2
                      right; right
                      refine ⟨_, _, by rw [sends_evs6_append]; rfl, s1, rfl, rfl, rfl, rfl, rfl,
                        ?_, fun _ => rfl⟩
                      intro e2 he2
                      simp [s2] at he2

/-- C4: whenever a second (auto-reply) send is attempted, the first send
was the owner notification and it succeeded; and when the auto-reply send
then fails, the trace ends with exactly the two send attempts (no
compensation) and the response is the 500 failure for that error. -/
theorem autoreply_only_after_notification (env : Env) (req : Request) (m : MailOptions)
    (h : (sends (contactHandler env req).1).get? 1 = some m) :
    ∃ m1, sends (contactHandler env req).1 = [m1, m]
      ∧ env.send1 = none
      ∧ m1.toAddr = ownerEmail ∧ m1.replyTo = some (req.email.getD "")
      ∧ m.toAddr = req.email.getD ""
      ∧ (contactHandler env req).1 = evs6 ++ [Event.send m1, Event.send m]
      ∧ (∀ e, env.send2 = some e →
          (contactHandler env req).2 = ⟨500, false, errorMessage e⟩) := by
  rcases contactHandler_sends_cases env req with hc | ⟨m1, e, hs, _⟩ |
    ⟨m1, m2, hs, hs1, ha1, ha2, ha3, hevs, _, hcl, _⟩
  · rw [hc] at h
    simp at h
  · rw [hs] at h
    simp at h
  · rw [hs] at h
    simp only [List.get?] at h
    rw [Option.some.injEq] at h
    subst h
    exact ⟨m1, hs, hs1, ha1, ha2, ha3, hevs, hcl⟩

/-- C4 witness: a run in which the notification succeeds and the auto-reply
fails with an authentication error. -/
theorem autoreply_only_after_notification_witness :
    (sends (contactHandler envSend2Fail reqOk).1).get? 1
        = some (mkAutoReplyMail "Jane" "jane@x.com" "abhishek.dev694@gmail.com" "T" "T")
    ∧ ∃ m1, sends (contactHandler envSend2Fail reqOk).1
          = [m1, mkAutoReplyMail "Jane" "jane@x.com" "abhishek.dev694@gmail.com" "T" "T"]
        ∧ envSend2Fail.send1 = none
        ∧ m1.toAddr = ownerEmail ∧ m1.replyTo = some (reqOk.email.getD "")
        ∧ (mkAutoReplyMail "Jane" "jane@x.com" "abhishek.dev694@gmail.com" "T" "T").toAddr
            = reqOk.email.getD ""
        ∧ (contactHandler envSend2Fail reqOk).1
            = evs6 ++ [Event.send m1,
                Event.send (mkAutoReplyMail "Jane" "jane@x.com" "abhishek.dev694@gmail.com" "T" "T")]
        ∧ (∀ e, envSend2Fail.send2 = some e →
            (contactHandler envSend2Fail reqOk).2 = ⟨500, false, errorMessage e⟩) :=
  ⟨by decide, autoreply_only_after_notification envSend2Fail reqOk _ (by decide)⟩

/-- C8: any trace holding a send starts with the transporter creation, the
verification and all four template loads; and when the pipeline reaches the
template stage and any of the four loads fails, the response is a 500
failure and no send at all is attempted. -/
theorem template_failure_blocks_sends :
    (∀ (env : Env) (req : Request), sends (contactHandler env req).1 ≠ [] →
      (contactHandler env req).1.take 6 = evs6)
    ∧ (∀ (env : Env) (req : Request),
        isBlank req.name = false → isBlank req.email = false →
        isBlank req.message = false →
        emailRegexMatch (req.email.getD "").data = true →
        isBlank env.emailPassword = false → env.verifyResult = none →
        (env.tpl "notification" "html" = none ∨ env.tpl "notification" "txt" = none
          ∨ env.tpl "auto-reply" "html" = none ∨ env.tpl "auto-reply" "txt" = none) →
        sends (contactHandler env req).1 = [] ∧ (contactHandler env req).2.status = 500
          ∧ (contactHandler env req).2.success = false) := by
  constructor
  · intro env req h
    rcases contactHandler_sends_cases env req with hc | ⟨m1, e, hs, _, _, ht, _⟩ |
      ⟨m1, m2, hs, _, _, _, _, _, ht, _⟩
    · exact absurd hc h
    · exact ht
    · exact ht
  · intro env req h1 h2 h3 h4 h5 hv hfail
    rw [contactHandler_core env req h1 h2 h3 h4, contactCore_tpl env _ _ _ _ h5 hv, tplPhase]
    split
    · exact ⟨rfl, rfl, rfl⟩
    · split
      · exact ⟨rfl, rfl, rfl⟩
      · split
        · exact ⟨rfl, rfl, rfl⟩
        · split
          · exact ⟨rfl, rfl, rfl⟩
          · rename_i a1 b1 q1 a2 b2 q2 a3 b3 q3 a4 b4 q4
            rcases hfail with hf | hf | hf | hf
            · rw [hf] at q1; exact absurd q1 (by simp)
            · rw [hf] at q2; exact absurd q2 (by simp)
            · rw [hf] at q3; exact absurd q3 (by simp)
            · rw [hf] at q4; exact absurd q4 (by simp)

/-- C8 witness: the all-success run has a send and its trace starts with
the six pre-send effects; the empty template store yields a 500 with no
send. -/
theorem template_failure_blocks_sends_witness :
    sends (contactHandler envOk reqOk).1 ≠ []
    ∧ (contactHandler envOk reqOk).1.take 6 = evs6
    ∧ envTplFail.tpl "notification" "html" = none
    ∧ (sends (contactHandler envTplFail reqOk).1 = []
        ∧ (contactHandler envTplFail reqOk).2.status = 500
        ∧ (contactHandler envTplFail reqOk).2.success = false) :=
  ⟨by decide, template_failure_blocks_sends.1 envOk reqOk (by decide), rfl,
   template_failure_blocks_sends.2 envTplFail reqOk (by decide) (by decide) (by decide)
     (by decide) (by decide) rfl (Or.inl rfl)⟩

/-- C6 counterexample: with the password environment variable missing, a
request that passes validation performs no verification at all (the
transporter creation throws first), so verification is not performed
exactly once in every execution that passes validation. -/
theorem verify_skipped_when_config_missing :
    isBlank reqOk.name = false ∧ isBlank reqOk.email = false
    ∧ isBlank reqOk.message = false
    ∧ emailRegexMatch (reqOk.email.getD "").data = true
    ∧ (contactHandler envNoPw reqOk).1 = []
    ∧ (contactHandler envNoPw reqOk).1.count Event.verify = 0 := by
  refine ⟨by decide, by decide, by decide, by decide, by decide, by decide⟩

/-- C6 (amended): in every execution that passes validation and in which
the transporter is successfully created (the password is present and
nonempty), verification is performed exactly once and before any send: the
trace is the creation, the verification, then a verification-free
remainder holding whatever sends occur; and when verification fails the
response is the 500 failure for that error and no send is attempted. -/
theorem verify_once_before_send (env : Env) (req : Request)
    (h1 : isBlank req.name = false) (h2 : isBlank req.email = false)
    (h3 : isBlank req.message = false)
    (h4 : emailRegexMatch (req.email.getD "").data = true)
    (h5 : isBlank env.emailPassword = false) :
    ∃ post, (contactHandler env req).1 = Event.createTransporter :: Event.verify :: post
      ∧ Event.verify ∉ post
      ∧ sends (contactHandler env req).1 = sends post
      ∧ (∀ e, env.verifyResult = some e → sends (contactHandler env req).1 = []
          ∧ (contactHandler env req).2 = ⟨500, false, errorMessage e⟩) := by
  rw [contactHandler_core env req h1 h2 h3 h4, contactCore, if_neg (by simp [h5])]
  split
  · rename_i e hv
    refine ⟨[], rfl, by simp, rfl, ?_⟩
    intro e2 he2
    rw [hv, Option.some.injEq] at he2
    subst he2
    exact ⟨rfl, rfl⟩
  · rename_i hv
    rw [tplPhase]
    have hvac : ∀ e2, env.verifyResult = some e2 → False := by
      intro e2 he2
      rw [hv] at he2
      simp at he2
    split
    · exact ⟨[Event.loadTpl "notification" "html"], rfl, by simp, rfl,
        fun e2 he2 => absurd (hvac e2 he2) (by simp)⟩
    · split
      · exact ⟨[Event.loadTpl "notification" "html", Event.loadTpl "notification" "txt"],
          rfl, by simp, rfl, fun e2 he2 => absurd (hvac e2 he2) (by simp)⟩
      · split
        · exact ⟨[Event.loadTpl "notification" "html", Event.loadTpl "notification" "txt",
            Event.loadTpl "auto-reply" "html"], rfl, by simp, rfl,
            fun e2 he2 => absurd (hvac e2 he2) (by simp)⟩
        · split
          · exact ⟨[Event.loadTpl "notification" "html", Event.loadTpl "notification" "txt",
              Event.loadTpl "auto-reply" "html", Event.loadTpl "auto-reply" "txt"],
              rfl, by simp, rfl, fun e2 he2 => absurd (hvac e2 he2) (by simp)⟩
          · rw [sendPhase]
            split
            · refine ⟨_, rfl, ?_, rfl, fun e2 he2 => absurd (hvac e2 he2) (by simp)⟩
              simp
            · split
              · refine ⟨_, rfl, ?_, rfl, fun e2 he2 => absurd (hvac e2 he2) (by simp)⟩
                simp
              · refine ⟨_, rfl, ?_, rfl, fun e2 he2 => absurd (hvac e2 he2) (by simp)⟩
                simp

/-- C6 amended witness: concrete run with a failing verification. -/
theorem verify_once_before_send_witness :
    ∃ post, (contactHandler envVerifyFail reqOk).1
        = Event.createTransporter :: Event.verify :: post
      ∧ Event.verify ∉ post
      ∧ sends (contactHandler envVerifyFail reqOk).1 = sends post
      ∧ (∀ e, envVerifyFail.verifyResult = some e →
          sends (contactHandler envVerifyFail reqOk).1 = []
          ∧ (contactHandler envVerifyFail reqOk).2 = ⟨500, false, errorMessage e⟩) :=
  verify_once_before_send envVerifyFail reqOk (by decide) (by decide) (by decide) (by decide)
    (by decide)

theorem occurs_suffix_self (p : List Char) (hp : p ≠ []) :
    ∀ pre : List Char, occurs p (pre ++ p) = true := by
  intro pre
  induction pre with
  | nil =>
    match p, hp with
    | c :: q, _ =>
      rw [List.nil_append, occurs_cons]
      have hpre : (c :: q).isPrefixOf (c :: q) = true := by
        rw [List.isPrefixOf_iff_prefix]
      rw [hpre, Bool.true_or]
  | cons c pre ih =>
    rw [List.cons_append, occurs_cons, ih, Bool.or_true]

/-- C10: for an absent or empty budget the notification subject carries the
literal Budget TBD while the CLIENT_BUDGET template variable carries the
literal Not specified; the two defaults for the same missing field differ. -/
theorem budget_defaults_differ (name email : String) (budget : Option String)
    (message effUser subTime ht hx : String)
    (hb : budget = none ∨ budget = some "") :
    strContains (mkNotificationMail name email budget effUser ht hx).subject "Budget TBD" = true
    ∧ (templateVars name email budget message effUser subTime).get? 2
        = some ("CLIENT_BUDGET", "Not specified")
    ∧ ("Budget TBD" : String) ≠ "Not specified" := by
  have hdef : ∀ d : String, orDefault budget d = d := by
    intro d
    rcases hb with h | h
    · rw [h, orDefault]
    · rw [h, orDefault]
      simp
  refine ⟨?_, ?_, by decide⟩
  · have hsub : (mkNotificationMail name email budget effUser ht hx).subject
        = ("🚀 New Project Inquiry from " ++ name ++ " - ") ++ "Budget TBD" := by
      rw [show (mkNotificationMail name email budget effUser ht hx).subject
        = "🚀 New Project Inquiry from " ++ name ++ " - " ++ orDefault budget "Budget TBD"
        from rfl, hdef]
    rw [strContains, hsub, String.data_append]
    exact occurs_suffix_self _ (by decide) _
  · rw [show (templateVars name email budget message effUser subTime).get? 2
      = some ("CLIENT_BUDGET", orDefault budget "Not specified") from rfl, hdef]

/-- C10 witness: concrete valid submission without a budget. -/
theorem budget_defaults_differ_witness :
    strContains (mkNotificationMail "Jane" "jane@x.com" none "abhishek.dev694@gmail.com" "T" "T").subject
        "Budget TBD" = true
    ∧ (templateVars "Jane" "jane@x.com" none "Hi" "abhishek.dev694@gmail.com" "Jan 1 EST").get? 2
        = some ("CLIENT_BUDGET", "Not specified")
    ∧ ("Budget TBD" : String) ≠ "Not specified" :=
  budget_defaults_differ "Jane" "jane@x.com" none "Hi" "abhishek.dev694@gmail.com" "Jan 1 EST"
    "T" "T" (Or.inl rfl)

theorem runRL_cons (st : Option (Nat × Nat)) (t : Nat) (ts : List Nat) :
    runRL st (t :: ts) = (rlStep st t).2 :: runRL (rlStep st t).1 ts := rfl

theorem runState_cons (st : Option (Nat × Nat)) (t : Nat) (ts : List Nat) :
    runState st (t :: ts) = runState (rlStep st t).1 ts := rfl

theorem runRL_inWindow (t1 : Nat) :
    ∀ (ts : List Nat) (c : Nat), 1 ≤ c → c ≤ emailLimiterMax →
      (∀ t ∈ ts, t < t1 + emailLimiterWindowMs) →
      runRL (some (t1, c)) ts
          = List.replicate (min ts.length (emailLimiterMax - c)) true
            ++ List.replicate (ts.length - (emailLimiterMax - c)) false
        ∧ runState (some (t1, c)) ts = some (t1, min (c + ts.length) emailLimiterMax) := by
  intro ts
  induction ts with
  | nil =>
    intro c h1 h2 _
    constructor
    · simp [runRL]
    · rw [runState]
      congr 2
      simp only [List.length_nil, Nat.add_zero]
      omega
  | cons t ts ih =>
    intro c h1 h2 hin
    have hlt : t < t1 + emailLimiterWindowMs := hin t (by simp)
    have hstep : rlStep (some (t1, c)) t
        = if c < emailLimiterMax then (some (t1, c + 1), true) else (some (t1, c), false) := by
      rw [rlStep, if_neg (by omega)]
    by_cases hc : c < emailLimiterMax
    · obtain ⟨ihr, ihs⟩ := ih (c + 1) (by omega) (by omega)
        (fun u hu => hin u (by simp [hu]))
      rw [runRL_cons, runState_cons, hstep, if_pos hc]
      constructor
      · show true :: runRL (some (t1, c + 1)) ts = _
        rw [ihr]
        have e1 : min (ts.length + 1) (emailLimiterMax - c)
            = min ts.length (emailLimiterMax - (c + 1)) + 1 := by omega
        have e2 : ts.length + 1 - (emailLimiterMax - c)
            = ts.length - (emailLimiterMax - (c + 1)) := by omega
        rw [show (t :: ts).length = ts.length + 1 from rfl, e1, e2, List.replicate_succ]
        rfl
      · show runState (some (t1, c + 1)) ts = _
        rw [ihs]
        have e3 : c + 1 + ts.length = c + (t :: ts).length := by simp; omega
        rw [e3]
    · obtain ⟨ihr, ihs⟩ := ih c h1 h2 (fun u hu => hin u (by simp [hu]))
      rw [runRL_cons, runState_cons, hstep, if_neg hc]
      have hc5 : emailLimiterMax - c = 0 := by omega
      constructor
      · show false :: runRL (some (t1, c)) ts = _
        rw [ihr, hc5]
        simp [List.replicate_succ]
      · show runState (some (t1, c)) ts = _
        rw [ihs]
        have e4 : min (c + ts.length) emailLimiterMax = min (c + (t :: ts).length) emailLimiterMax := by
          simp
          omega
        rw [e4]

/-- C5 (spec-modelled limiter): starting fresh, a run of requests from one
address inside one window is accepted exactly up to the quota of five, the
sixth and later requests are refused; a refused request is answered with
the fixed rejection message, a 429 status and an empty effect trace (no
mail attempted); and a request after the window has elapsed is accepted
again. -/
theorem rate_limiter_fixed_window (t1 : Nat) (ts : List Nat) (env : Env) (req : Request)
    (hin : ∀ t ∈ ts, t < t1 + emailLimiterWindowMs) :
    runRL none (t1 :: ts)
        = List.replicate (min (ts.length + 1) emailLimiterMax) true
          ++ List.replicate (ts.length + 1 - emailLimiterMax) false
    ∧ contactRoute env req false = ([], ⟨429, false, emailLimiterMessage⟩)
    ∧ ∀ t2, t1 + emailLimiterWindowMs ≤ t2 → (rlStep (runState none (t1 :: ts)) t2).2 = true := by
  have h0 : rlStep none t1 = (some (t1, 1), true) := rfl
  obtain ⟨hr, hs⟩ := runRL_inWindow t1 ts 1 (by omega) (by decide) hin
  refine ⟨?_, rfl, ?_⟩
  · rw [runRL_cons, h0]
    show true :: runRL (some (t1, 1)) ts = _
    rw [hr]
    have e1 : min (ts.length + 1) emailLimiterMax
        = min ts.length (emailLimiterMax - 1) + 1 := by
      have : emailLimiterMax = 5 := rfl
      omega
    have e2 : ts.length + 1 - emailLimiterMax = ts.length - (emailLimiterMax - 1) := by
      have : emailLimiterMax = 5 := rfl
      omega
    rw [e1, e2, List.replicate_succ]
    rfl
  · intro t2 h2
    rw [runState_cons, h0]
    show (rlStep (runState (some (t1, 1)) ts) t2).2 = true
    rw [hs, rlStep, if_pos h2]

/-- C5 witness: seven requests at the window start: five accepted, the
sixth and seventh refused; a refused request yields the fixed message and
no effects; the next window accepts again. -/
theorem rate_limiter_fixed_window_witness :
    (∀ t ∈ ([0, 0, 0, 0, 0, 0] : List Nat), t < 0 + emailLimiterWindowMs)
    ∧ runRL none (0 :: [0, 0, 0, 0, 0, 0])
        = List.replicate (min (6 + 1) emailLimiterMax) true
          ++ List.replicate (6 + 1 - emailLimiterMax) false
    ∧ contactRoute envOk reqOk false = ([], ⟨429, false, emailLimiterMessage⟩)
    ∧ (rlStep (runState none (0 :: [0, 0, 0, 0, 0, 0])) emailLimiterWindowMs).2 = true :=
  ⟨by decide,
   (rate_limiter_fixed_window 0 [0, 0, 0, 0, 0, 0] envOk reqOk (by decide)).1,
   (rate_limiter_fixed_window 0 [0, 0, 0, 0, 0, 0] envOk reqOk (by decide)).2.1,
   (rate_limiter_fixed_window 0 [0, 0, 0, 0, 0, 0] envOk reqOk (by decide)).2.2
     emailLimiterWindowMs (by omega)⟩
